import Mathlib

/-!
Verification development for the TRT-Edge-Server inference session manager.

The development shallowly embeds the session manager (TrtInferenceEngine in
TRT_inference_engine.cpp/.hpp) and the YOLO detection module (namespace
TRT::YOLO, with the constants of TRT_YOLO_defs.hpp).  Device and host
pointers are modelled as natural-number handles; a null pointer in a device
buffer vector is modelled as none.  C++ float values appearing in the
detection decoder are modelled as exact rationals: the decoder only compares
and subtracts them, and every concrete value used in the theorems below is
representable so the comparisons agree with the source.  cudaMalloc outcomes
are abstracted by an oracle mapping the call index within one
allocate_buffers invocation, together with the requested byte count, to
either some handle (success) or none (failure).
-/

namespace TRTEdge

/-- State of a TrtInferenceEngine object: the data members declared in
TRT_inference_engine.hpp (the opaque runtime_, engine_, context_ handles and
the logger carry no data relevant to the claims and are not modelled;
input_dims_ and input_shapes_ both hold the dimension lists, as the source
stores the same numbers twice in nvinfer1::Dims and vector of int form). -/
structure EngineState where
  num_inputs : Int
  num_outputs : Int
  input_dims : List (List Int)
  output_dims : List (List Int)
  input_shapes : List (List Int)
  output_shapes : List (List Int)
  input_names : List String
  output_names : List String
  input_cuda_buffers : List (Option Nat)
  output_cuda_buffers : List (Option Nat)
  bindings : List (Option Nat)
  trt_input_element_counts : List Nat
  trt_output_element_counts : List Nat
  deriving DecidableEq

/-- Source: get_num_inputs returns num_inputs_. -/
def get_num_inputs (s : EngineState) : Int := s.num_inputs

/-- Source: get_num_outputs returns num_outputs_. -/
def get_num_outputs (s : EngineState) : Int := s.num_outputs

/-- Source: get_input_shapes returns input_shapes_. -/
def get_input_shapes (s : EngineState) : List (List Int) := s.input_shapes

/-- Source: get_output_shapes returns output_shapes_. -/
def get_output_shapes (s : EngineState) : List (List Int) := s.output_shapes

/-- Source: get_input_elements returns trt_input_element_counts_. -/
def get_input_elements (s : EngineState) : List Nat := s.trt_input_element_counts

/-- Source: get_output_elements returns trt_output_element_counts_. -/
def get_output_elements (s : EngineState) : List Nat := s.trt_output_element_counts

/-- Source: get_input_size_bytes builds a vector of num_inputs_ entries and
fills entry i with trt_input_element_counts_[i] * element_size (default
sizeof(float) = 4).  An index beyond the stored count list would be
out-of-range in the source; getD totalises it with 0 (no theorem below
reaches that case). -/
def get_input_size_bytes (s : EngineState) (element_size : Nat := 4) : List Nat :=
  (List.range s.num_inputs.toNat).map fun i =>
    s.trt_input_element_counts.getD i 0 * element_size

/-- Source: get_output_size_bytes, symmetric to get_input_size_bytes. -/
def get_output_size_bytes (s : EngineState) (element_size : Nat := 4) : List Nat :=
  (List.range s.num_outputs.toNat).map fun i =>
    s.trt_output_element_counts.getD i 0 * element_size

/-- One entry of the binding table a loaded model exposes: name, dimensions
and role, as read back by getBindingName, getBindingDimensions and
bindingIsInput. -/
structure Binding where
  name : String
  dims : List Int
  is_input : Bool
  deriving DecidableEq

/-- Source: validate_and_calculate_elements throws when nbDims is 0, throws
on the first dimension value that is not positive, and otherwise returns the
product of the dimensions. -/
def validate_and_calculate_elements (dims : List Int) : Except String Nat :=
  if dims.length = 0 then .error "no dimensions detected"
  else if dims.any (fun d => d ≤ 0) then .error "invalid dimension"
  else .ok (dims.foldl (fun acc d => acc * d.toNat) 1)

/-- One iteration of the binding loop of calculate_model_parameters: throw on
a non-positive dimension value, then append the dimensions, the name and the
shape copy to the lists of the binding role. -/
def storeBinding (st : EngineState) (b : Binding) : Except String EngineState :=
  if b.dims.any (fun d => d ≤ 0) then .error "invalid dimension value in binding"
  else if b.is_input then
    .ok { st with
      input_dims := st.input_dims ++ [b.dims],
      input_names := st.input_names ++ [b.name],
      input_shapes := st.input_shapes ++ [b.dims] }
  else
    .ok { st with
      output_dims := st.output_dims ++ [b.dims],
      output_names := st.output_names ++ [b.name],
      output_shapes := st.output_shapes ++ [b.dims] }

/-- Source: calculate_model_parameters.  It clears input_dims_, output_dims_,
the name lists and the element-count lists (the shape lists are not cleared
in the source), then sets num_inputs_ and num_outputs_ to the sizes of the
just-cleared dimension lists (source lines 128-130, before the binding loop
populates them), then stores every binding, then computes the element counts.
The engine-null check at entry is represented by taking the binding table of
the loaded model as the argument. -/
def calculate_model_parameters (model : List Binding) (s : EngineState) :
    Except String EngineState := do
  let cleared : EngineState :=
    { s with
      input_dims := [], output_dims := [],
      input_names := [], output_names := [],
      trt_input_element_counts := [], trt_output_element_counts := [] }
  let counted : EngineState :=
    { cleared with
      num_inputs := Int.ofNat cleared.input_dims.length,
      num_outputs := Int.ofNat cleared.output_dims.length }
  let populated ← model.foldlM storeBinding counted
  let inCounts ← populated.input_dims.mapM validate_and_calculate_elements
  let outCounts ← populated.output_dims.mapM validate_and_calculate_elements
  .ok { populated with
    trt_input_element_counts := inCounts,
    trt_output_element_counts := outCounts }

/-- Source: deallocate_buffers calls cudaFree on every non-null pointer of
input_cuda_buffers_ and output_cuda_buffers_, then clears both vectors and
the bindings_ vector.  The second component lists, in order, the pointers
passed to cudaFree. -/
def deallocate_buffers (s : EngineState) : EngineState × List Nat :=
  ({ s with input_cuda_buffers := [], output_cuda_buffers := [], bindings := [] },
   s.input_cuda_buffers.filterMap id ++ s.output_cuda_buffers.filterMap id)

/-- The allocation loop of allocate_buffers over a list of byte sizes,
starting at a given cudaMalloc call index: on the first failing call it
returns, as the error value, the handles allocated by the earlier calls (the
entries the loop had written over the value-initialised null slots of the
resized vector); when every call succeeds it returns all handles. -/
def allocLoop (malloc : Nat → Nat → Option Nat) : Nat → List Nat → Except (List Nat) (List Nat)
  | _, [] => .ok []
  | k, sz :: rest =>
    match malloc k sz with
    | none => .error []
    | some p =>
      match allocLoop malloc (k + 1) rest with
      | .error done => .error (p :: done)
      | .ok ps => .ok (p :: ps)

/-- The handles returned by the successful cudaMalloc calls the allocation
loop performs before its first failing call, in call order: the buffers a
failing allocate_buffers run has allocated so far and must roll back. -/
def successfulAllocs (malloc : Nat → Nat → Option Nat) : Nat → List Nat → List Nat
  | _, [] => []
  | k, sz :: rest =>
    match malloc k sz with
    | none => []
    | some p => p :: successfulAllocs malloc (k + 1) rest

/-- Result of one allocate_buffers call: the engine state after the call, the
pointers passed to cudaFree during the call, and whether the call reached the
success path (every early return in the source prints an error message to
cerr first; ok = false stands for that reported failure). -/
structure AllocResult where
  state : EngineState
  freed : List Nat
  ok : Bool
  deriving DecidableEq

/-- Source: allocate_buffers.  Guard one: error out when input or output
device buffers are already present.  Guard two: error out when num_inputs_ or
num_outputs_ is below one.  Then resize and fill the input buffer vector, one
cudaMalloc per input, and the output buffer vector, one cudaMalloc per
output; on any cudaMalloc failure call deallocate_buffers on the partially
filled vectors and return.  On success rebuild bindings_ as the inputs
followed by the outputs. -/
def allocate_buffers (malloc : Nat → Nat → Option Nat) (s : EngineState) : AllocResult :=
  if ¬ (s.input_cuda_buffers = [] ∧ s.output_cuda_buffers = []) then
    { state := s, freed := [], ok := false }
  else if s.num_inputs < 1 ∨ s.num_outputs < 1 then
    { state := s, freed := [], ok := false }
  else
    let input_sizes := get_input_size_bytes s
    let output_sizes := get_output_size_bytes s
    match allocLoop malloc 0 input_sizes with
    | .error done =>
      let failed := { s with
        input_cuda_buffers :=
          done.map some ++ List.replicate (input_sizes.length - done.length) none }
      let freedPair := deallocate_buffers failed
      { state := freedPair.1, freed := freedPair.2, ok := false }
    | .ok inPtrs =>
      match allocLoop malloc input_sizes.length output_sizes with
      | .error done =>
        let failed := { s with
          input_cuda_buffers := inPtrs.map some,
          output_cuda_buffers :=
            done.map some ++ List.replicate (output_sizes.length - done.length) none }
        let freedPair := deallocate_buffers failed
        { state := freedPair.1, freed := freedPair.2, ok := false }
      | .ok outPtrs =>
        { state := { s with
            input_cuda_buffers := inPtrs.map some,
            output_cuda_buffers := outPtrs.map some,
            bindings := inPtrs.map some ++ outPtrs.map some },
          freed := [], ok := true }

/-- Observable trace of one infer_b call: the returned flag, the
host-to-device copies performed as pairs of input slot and byte count, whether
executeV2 ran, and the device-to-host copies. -/
structure InferTrace where
  ok : Bool
  h2d_copies : List (Nat × Nat)
  executed : Bool
  d2h_copies : List (Nat × Nat)
  deriving DecidableEq

/-- Source: infer_b.  Its first check (source lines 16-24) compares the
identifiers input_size and output_size against get_input_size_bytes() and
get_output_size_bytes(); neither identifier is declared anywhere in the
repository (not a data member, not a parameter, not a global), so the check
has no defined meaning and is omitted from the model.  The remaining body is
modelled as written: compare the host buffer counts against the device
buffer counts and fail on mismatch; otherwise cudaMemcpy every input with
the caller-declared byte count size_in_param[i], call executeV2 on
bindings_, and cudaMemcpy every output back with size_out_param[i].  No
per-index comparison of size_in_param or size_out_param against the computed
sizes occurs before the copies. -/
def infer_b (s : EngineState) (input_buf : List Nat) (size_in_param : List Nat)
    (output_buf : List Nat) (size_out_param : List Nat) : InferTrace :=
  if input_buf.length ≠ s.input_cuda_buffers.length
      ∨ output_buf.length ≠ s.output_cuda_buffers.length then
    { ok := false, h2d_copies := [], executed := false, d2h_copies := [] }
  else
    { ok := true,
      h2d_copies :=
        (List.range s.input_cuda_buffers.length).map fun i => (i, size_in_param.getD i 0),
      executed := true,
      d2h_copies :=
        (List.range s.output_cuda_buffers.length).map fun i => (i, size_out_param.getD i 0) }

/-- Source: validate_buffers (declared private, never called by infer_b).
Fails when the host buffer counts differ from num_inputs_/num_outputs_, and
otherwise requires every host pointer non-null (0 models a null host
pointer) and every caller byte size equal to the computed byte size of the
same index. -/
def validate_buffers (s : EngineState) (input_bufs : List Nat) (input_sizes : List Nat)
    (output_bufs : List Nat) (output_sizes : List Nat) : Bool :=
  if (input_bufs.length : Int) ≠ s.num_inputs
      ∨ (output_bufs.length : Int) ≠ s.num_outputs then
    false
  else
    let expected_input_sizes := get_input_size_bytes s
    let expected_output_sizes := get_output_size_bytes s
    ((List.range s.num_inputs.toNat).all fun i =>
      (input_bufs.getD i 0 != 0)
        && (input_sizes.getD i 0 == expected_input_sizes.getD i 0))
    && ((List.range s.num_outputs.toNat).all fun i =>
      (output_bufs.getD i 0 != 0)
        && (output_sizes.getD i 0 == expected_output_sizes.getD i 0))

/-- Source: infer_async returns false unconditionally (not yet implemented). -/
def infer_async (input_buf : List Nat) (size_in_param : List Nat) : Bool :=
  false

/-- Source: retrieve_infer_result_async executes return false in a function
whose return type is size_t; the boolean converts to the integer 0. -/
def retrieve_infer_result_async (output_buf : List Nat) (size_out_param : List Nat) : Nat :=
  0

/-! The TRT::YOLO detection module: the constants of TRT_YOLO_defs.hpp and
the functions of the module source file. -/

/-- Source: constexpr int MODEL_NUM_INPUTS = 1. -/
def MODEL_NUM_INPUTS : Int := 1

/-- Source: constexpr int MODEL_NUM_OUTPUTS = 4. -/
def MODEL_NUM_OUTPUTS : Int := 4

/-- Source: constexpr int CONFIDENCE_SCORE_THRESHOLD = 0.25f.  The constant
is declared int, so the float initialiser 0.25f (exactly the rational 1/4)
undergoes a floating-to-integral conversion, which truncates toward zero;
for the positive value 1/4 this is its floor. -/
def CONFIDENCE_SCORE_THRESHOLD : Int := (mkRat 1 4).floor

/-- Source: struct bounding_box of TRT_YOLO_defs.hpp (float fields modelled
as exact rationals). -/
structure bounding_box where
  x : ℚ
  y : ℚ
  width : ℚ
  height : ℚ
  deriving DecidableEq

/-- Source: struct detected_object_info of TRT_YOLO_defs.hpp. -/
structure detected_object_info where
  rect : bounding_box
  class_id : Int
  confidence : ℚ
  deriving DecidableEq

/-- Contents of the four output host buffers after inference, as
identify_objects reinterprets them: output_data[0] as one 32-bit signed
detection count, output_data[1] as a flat float array of corner pairs,
output_data[2] as a float array of scores, output_data[3] as a 32-bit
signed label array.  The accelerator wrote these bytes, so they are an
oracle of the model. -/
structure YoloOutputs where
  num_dets : Int
  bboxes : Nat → ℚ
  scores : Nat → ℚ
  labels : Nat → Int

/-- The static module state of namespace TRT::YOLO: the initialisation
flag, the engine pointer, and the four static vectors. -/
structure YoloState where
  initialized : Bool
  engine : Option EngineState
  input_sizes : List Nat
  output_sizes : List Nat
  input_data : List Nat
  output_data : List Nat
  deriving DecidableEq

/-- Source: identify_objects.  Gate one tests initialized and the engine
pointer in a single condition (here split into a match on the engine and a
test of the flag, with the same observable result).  Gate two compares the
engine I/O counts against MODEL_NUM_INPUTS and MODEL_NUM_OUTPUTS.  Gate
three compares input_sizes[0] against the byte length of the input image.
Then the image is copied into input_data[0] (a host write with no effect on
the values below) and infer_b runs; on failure return -1.  The decoder then
clears results_buffer (an identifier the repository never declares; modelled
as a vector that is empty from this point on, since nothing is ever appended
to it), rejects a detection count outside 0..100 with -1, filters the
detections by score < CONFIDENCE_SCORE_THRESHOLD (an int promoted to float
in the comparison), appends one record per kept detection to
results_detections, and returns results_buffer.size(). -/
def identify_objects (st : YoloState) (outputs : YoloOutputs) (input_img_len : Nat)
    (results_detections : List detected_object_info) :
    Int × List detected_object_info :=
  match st.engine with
  | none => (-1, results_detections)
  | some eng =>
    if st.initialized = false then (-1, results_detections)
    else if get_num_inputs eng ≠ MODEL_NUM_INPUTS
        ∨ get_num_outputs eng ≠ MODEL_NUM_OUTPUTS then
      (-1, results_detections)
    else if st.input_sizes.getD 0 0 ≠ input_img_len * 4 then
      (-1, results_detections)
    else
      let tr := infer_b eng st.input_data st.input_sizes st.output_data st.output_sizes
      if tr.ok = false then (-1, results_detections)
      else
        let results_buffer : List detected_object_info := []
        let num_dets := outputs.num_dets
        if num_dets < 0 ∨ 100 < num_dets then (-1, results_detections)
        else
          let appended := (List.range num_dets.toNat).filterMap fun i =>
            let score := outputs.scores i
            if score < (CONFIDENCE_SCORE_THRESHOLD : ℚ) then none
            else some
              { rect :=
                  { x := outputs.bboxes (i * 4),
                    y := outputs.bboxes (i * 4 + 1),
                    width := outputs.bboxes (i * 4 + 2) - outputs.bboxes (i * 4),
                    height := outputs.bboxes (i * 4 + 3) - outputs.bboxes (i * 4 + 1) },
                class_id := outputs.labels i,
                confidence := score }
          ((results_buffer.length : Int), results_detections ++ appended)

/-- Source: unload_model.  It resets the engine, then calls
free(input_data[i]) for every i below MODEL_NUM_INPUTS and
free(output_data[i]) for every i below MODEL_NUM_OUTPUTS, then clears the
four vectors and the flag.  vector operator[] at an index not below size()
is undefined behaviour; the model returns none when a loop indexes past the
end of the vector, and otherwise the fully cleared state. -/
def unload_model (s : YoloState) : Option YoloState := do
  let _ ← (List.range MODEL_NUM_INPUTS.toNat).mapM fun i => s.input_data[i]?
  let _ ← (List.range MODEL_NUM_OUTPUTS.toNat).mapM fun i => s.output_data[i]?
  some { initialized := false, engine := none,
         input_sizes := [], output_sizes := [],
         input_data := [], output_data := [] }

/-! Concrete fixtures for the evaluation theorems and witnesses. -/

/-- A minimal valid model: one input binding of shape 1x3x640x640 and one
output binding of shape 1x1, every dimension positive. -/
def demoModel : List Binding :=
  [{ name := "images", dims := [1, 3, 640, 640], is_input := true },
   { name := "num_dets", dims := [1, 1], is_input := false }]

/-- The engine state at the start of construction: every container empty. -/
def freshEngine : EngineState :=
  { num_inputs := 0, num_outputs := 0,
    input_dims := [], output_dims := [],
    input_shapes := [], output_shapes := [],
    input_names := [], output_names := [],
    input_cuda_buffers := [], output_cuda_buffers := [], bindings := [],
    trt_input_element_counts := [], trt_output_element_counts := [] }

/-- A fully constructed engine with one input of two elements and one output
of two elements, with its device buffers and binding table in place. -/
def smallEngine : EngineState :=
  { num_inputs := 1, num_outputs := 1,
    input_dims := [[2]], output_dims := [[2]],
    input_shapes := [[2]], output_shapes := [[2]],
    input_names := ["in"], output_names := ["out"],
    input_cuda_buffers := [some 100], output_cuda_buffers := [some 200],
    bindings := [some 100, some 200],
    trt_input_element_counts := [2], trt_output_element_counts := [2] }

/-- An engine with the YOLO I/O profile: one input of two elements and the
four outputs, with device buffers allocated. -/
def yoloEngine : EngineState :=
  { num_inputs := 1, num_outputs := 4,
    input_dims := [[2]], output_dims := [[1, 1], [1, 100, 4], [1, 100], [1, 100]],
    input_shapes := [[2]], output_shapes := [[1, 1], [1, 100, 4], [1, 100], [1, 100]],
    input_names := ["images"],
    output_names := ["num_dets", "bboxes", "scores", "labels"],
    input_cuda_buffers := [some 1],
    output_cuda_buffers := [some 2, some 3, some 4, some 5],
    bindings := [some 1, some 2, some 3, some 4, some 5],
    trt_input_element_counts := [2],
    trt_output_element_counts := [1, 400, 100, 100] }

/-- Module state after a successful load against yoloEngine: one input host
buffer, four output host buffers, sizes matching the engine. -/
def yoloLoaded : YoloState :=
  { initialized := true, engine := some yoloEngine,
    input_sizes := [8], output_sizes := [4, 1600, 400, 400],
    input_data := [11], output_data := [21, 22, 23, 24] }

/-- Synthetic output set of the specification test: three detections with
scores 0.9, 0.1 and 0.3; boxes enumerate the flat buffer, labels the index. -/
def threeDetections : YoloOutputs :=
  { num_dets := 3,
    bboxes := fun k => mkRat k 1,
    scores := fun i => if i = 0 then mkRat 9 10 else if i = 1 then mkRat 1 10 else
      if i = 2 then mkRat 3 10 else 0,
    labels := fun i => (i : Int) }

/-- An output set reporting 101 detections. -/
def tooManyDetections : YoloOutputs :=
  { num_dets := 101, bboxes := fun _ => 0, scores := fun _ => 0, labels := fun _ => 0 }

/-- An output set reporting a negative detection count. -/
def negativeDetections : YoloOutputs :=
  { num_dets := -1, bboxes := fun _ => 0, scores := fun _ => 0, labels := fun _ => 0 }

/-- An output set reporting zero detections. -/
def zeroDetections : YoloOutputs :=
  { num_dets := 0, bboxes := fun _ => 0, scores := fun _ => 0, labels := fun _ => 0 }

/-- One detection with score 0.9, label 7, box corners (1,2) and (4,6). -/
def oneDetection : YoloOutputs :=
  { num_dets := 1,
    bboxes := fun k => if k = 0 then mkRat 1 1 else if k = 1 then mkRat 2 1 else
      if k = 2 then mkRat 4 1 else if k = 3 then mkRat 6 1 else 0,
    scores := fun _ => mkRat 9 10,
    labels := fun _ => 7 }

/-- A pre-allocation engine: one input of one element, one output of one
element, no device buffers yet. -/
def rollbackStart : EngineState :=
  { freshEngine with
    num_inputs := 1, num_outputs := 1,
    input_dims := [[1]], output_dims := [[1]],
    input_shapes := [[1]], output_shapes := [[1]],
    input_names := ["a"], output_names := ["b"],
    trt_input_element_counts := [1], trt_output_element_counts := [1] }

/-- A cudaMalloc oracle whose first call succeeds with handle 7 and whose
second call fails. -/
def failingMalloc : Nat → Nat → Option Nat := fun k _ => if k = 0 then some 7 else none

/-- A cudaMalloc oracle that always succeeds. -/
def okMalloc : Nat → Nat → Option Nat := fun k _ => some (k + 50)

/-- The module state unload_model produces on a successful pass. -/
def yoloCleared : YoloState :=
  { initialized := false, engine := none,
    input_sizes := [], output_sizes := [],
    input_data := [], output_data := [] }

/-! Helper lemmas about the allocation loop. -/

/-- Splitting an allocation run over a concatenated size list. -/
theorem allocLoop_append (m : Nat → Nat → Option Nat) (l₁ l₂ : List Nat) :
    ∀ k, allocLoop m k (l₁ ++ l₂) =
      match allocLoop m k l₁ with
      | .error done => .error done
      | .ok ps =>
        match allocLoop m (k + l₁.length) l₂ with
        | .error done => .error (ps ++ done)
        | .ok qs => .ok (ps ++ qs) := by
  induction l₁ with
  | nil =>
    intro k
    simp only [List.nil_append, allocLoop, List.length_nil, Nat.add_zero]
    cases allocLoop m k l₂ with
    | error done => rfl
    | ok qs => rfl
  | cons sz rest ih =>
    intro k
    have harith : k + (rest.length + 1) = k + 1 + rest.length := by omega
    simp only [List.cons_append, allocLoop, List.length_cons, harith, List.append_eq]
    cases hm : m k sz with
    | none => rfl
    | some p =>
      rw [ih (k + 1)]
      cases h1 : allocLoop m (k + 1) rest with
      | error done => rfl
      | ok ps =>
        cases h2 : allocLoop m (k + 1 + rest.length) l₂ with
        | error done => simp
        | ok qs => simp

/-- A failing allocation run returns exactly the handles of its successful
calls. -/
theorem allocLoop_error_elim (m : Nat → Nat → Option Nat) (l : List Nat) :
    ∀ k done, allocLoop m k l = .error done → done = successfulAllocs m k l := by
  induction l with
  | nil =>
    intro k done h
    simp [allocLoop] at h
  | cons sz rest ih =>
    intro k done h
    simp only [allocLoop] at h
    cases hm : m k sz with
    | none =>
      rw [hm] at h
      simp only [successfulAllocs, hm]
      exact (Except.error.injEq _ _).mp h.symm
    | some p =>
      rw [hm] at h
      simp only [successfulAllocs, hm]
      cases hr : allocLoop m (k + 1) rest with
      | error done₂ =>
        rw [hr] at h
        have : p :: done₂ = done := (Except.error.injEq _ _).mp h
        rw [← this, ih (k + 1) done₂ hr]
      | ok ps =>
        rw [hr] at h
        exact absurd h (by simp)

/-- A run over a size list with some failing call ends in an error. -/
theorem allocLoop_error_of_fail (m : Nat → Nat → Option Nat) (l : List Nat) :
    ∀ k, (∃ j, j < l.length ∧ m (k + j) (l.getD j 0) = none) →
      ∃ done, allocLoop m k l = .error done := by
  induction l with
  | nil =>
    intro k h
    obtain ⟨j, hj, _⟩ := h
    simp at hj
  | cons sz rest ih =>
    intro k h
    obtain ⟨j, hj, hm⟩ := h
    cases h0 : m k sz with
    | none =>
      exact ⟨[], by simp [allocLoop, h0]⟩
    | some p =>
      cases j with
      | zero =>
        rw [Nat.add_zero] at hm
        simp [List.getD] at hm
        rw [h0] at hm
        exact absurd hm (by simp)
      | succ j₂ =>
        have harith : k + 1 + j₂ = k + (j₂ + 1) := by omega
        have hrec : ∃ done, allocLoop m (k + 1) rest = .error done := by
          refine ih (k + 1) ⟨j₂, by simpa using hj, ?_⟩
          rw [harith]
          simpa [List.getD] using hm
        obtain ⟨done, hdone⟩ := hrec
        exact ⟨p :: done, by simp [allocLoop, h0, hdone]⟩

/-- A fully successful allocation run returns one handle per requested
size. -/
theorem allocLoop_ok_length (m : Nat → Nat → Option Nat) (l : List Nat) :
    ∀ k ps, allocLoop m k l = .ok ps → ps.length = l.length := by
  induction l with
  | nil =>
    intro k ps h
    simp only [allocLoop] at h
    cases h
    rfl
  | cons sz rest ih =>
    intro k ps h
    simp only [allocLoop] at h
    cases hm : m k sz with
    | none => rw [hm] at h; exact absurd h (by simp)
    | some p =>
      rw [hm] at h
      cases hr : allocLoop m (k + 1) rest with
      | error done => rw [hr] at h; exact absurd h (by simp)
      | ok qs =>
        rw [hr] at h
        have : p :: qs = ps := (Except.ok.injEq _ _).mp h
        rw [← this]
        simp [ih (k + 1) qs hr]

/-- Filtering the identity over allocated handles followed by null slots
recovers the handles. -/
theorem filterMap_id_some_append_replicate (l : List Nat) (n : Nat) :
    List.filterMap id (l.map some ++ List.replicate n (none : Option Nat)) = l := by
  have h2 : List.filterMap id (List.replicate n (none : Option Nat)) = [] := by
    induction n with
    | zero => rfl
    | succ n₂ ih => simp [List.replicate_succ, List.filterMap_cons, ih]
  simp [List.filterMap_append, h2, List.filterMap_map]

/-- When every buffer is in place, allocate_buffers refuses with its first
guard and changes nothing. -/
theorem allocate_buffers_already_allocated (m : Nat → Nat → Option Nat) (t : EngineState)
    (h : ¬ (t.input_cuda_buffers = [] ∧ t.output_cuda_buffers = [])) :
    allocate_buffers m t = { state := t, freed := [], ok := false } := by
  unfold allocate_buffers
  rw [if_pos h]

/-- A successful allocate_buffers call decomposes into two successful
allocation runs, and its result state holds one device buffer per input and
per output with the binding table rebuilt from them. -/
theorem allocate_buffers_ok_elim (m : Nat → Nat → Option Nat) (s : EngineState)
    (hok : (allocate_buffers m s).ok = true) :
    ∃ ps qs, allocLoop m 0 (get_input_size_bytes s) = .ok ps
      ∧ allocLoop m (get_input_size_bytes s).length (get_output_size_bytes s) = .ok qs
      ∧ 1 ≤ s.num_inputs ∧ 1 ≤ s.num_outputs
      ∧ allocate_buffers m s =
          { state := { s with
              input_cuda_buffers := ps.map some,
              output_cuda_buffers := qs.map some,
              bindings := ps.map some ++ qs.map some },
            freed := [], ok := true } := by
  by_cases hempty : s.input_cuda_buffers = [] ∧ s.output_cuda_buffers = []
  · by_cases hcnt : s.num_inputs < 1 ∨ s.num_outputs < 1
    · have hbad : allocate_buffers m s = { state := s, freed := [], ok := false } := by
        unfold allocate_buffers
        rw [if_neg (not_not_intro hempty), if_pos hcnt]
      rw [hbad] at hok
      exact absurd hok (by simp)
    · cases ha : allocLoop m 0 (get_input_size_bytes s) with
      | error done =>
        have hbad : (allocate_buffers m s).ok = false := by
          simp only [allocate_buffers, if_neg (not_not_intro hempty), if_neg hcnt, ha]
        rw [hok] at hbad
        exact absurd hbad (by simp)
      | ok ps =>
        cases hb : allocLoop m (get_input_size_bytes s).length (get_output_size_bytes s) with
        | error done =>
          have hbad : (allocate_buffers m s).ok = false := by
            simp only [allocate_buffers, if_neg (not_not_intro hempty), if_neg hcnt, ha, hb]
          rw [hok] at hbad
          exact absurd hbad (by simp)
        | ok qs =>
          have key : allocate_buffers m s =
              { state := { s with
                  input_cuda_buffers := ps.map some,
                  output_cuda_buffers := qs.map some,
                  bindings := ps.map some ++ qs.map some },
                freed := [], ok := true } := by
            simp only [allocate_buffers, if_neg (not_not_intro hempty), if_neg hcnt, ha, hb]
          exact ⟨ps, qs, rfl, rfl, by omega, by omega, key⟩
  · have hbad : allocate_buffers m s = { state := s, freed := [], ok := false } :=
      allocate_buffers_already_allocated m s hempty
    rw [hbad] at hok
    exact absurd hok (by simp)

/-- Filtering by rejection inside a filterMap is filtering by the kept
predicate followed by mapping the constructor. -/
theorem filterMap_reject {α β : Type} (p : α → Prop) [DecidablePred p] (g : α → β)
    (l : List α) :
    (l.filterMap fun a => if p a then none else some (g a))
      = (l.filter fun a => decide (¬ p a)).map g := by
  induction l with
  | nil => rfl
  | cons a t ih =>
    by_cases h : p a
    · simp [List.filterMap_cons, List.filter_cons, h, ih]
    · simp [List.filterMap_cons, List.filter_cons, h, ih]

/-- When every gate of identify_objects passes, the call reduces to the
detection decoder: reject an out-of-range count with -1, otherwise append
one record per kept detection and return the size of the cleared
results_buffer. -/
theorem identify_objects_gates_eq (st : YoloState) (eng : EngineState)
    (outputs : YoloOutputs) (input_img_len : Nat) (res : List detected_object_info)
    (heng : st.engine = some eng) (hinit : st.initialized = true)
    (hcin : get_num_inputs eng = MODEL_NUM_INPUTS)
    (hcout : get_num_outputs eng = MODEL_NUM_OUTPUTS)
    (hsz : st.input_sizes.getD 0 0 = input_img_len * 4)
    (hinfer : (infer_b eng st.input_data st.input_sizes st.output_data
        st.output_sizes).ok = true) :
    identify_objects st outputs input_img_len res =
      if outputs.num_dets < 0 ∨ 100 < outputs.num_dets then (-1, res)
      else (0, res ++ (List.range outputs.num_dets.toNat).filterMap fun i =>
        if outputs.scores i < (CONFIDENCE_SCORE_THRESHOLD : ℚ) then none
        else some
          { rect :=
              { x := outputs.bboxes (i * 4),
                y := outputs.bboxes (i * 4 + 1),
                width := outputs.bboxes (i * 4 + 2) - outputs.bboxes (i * 4),
                height := outputs.bboxes (i * 4 + 3) - outputs.bboxes (i * 4 + 1) },
            class_id := outputs.labels i,
            confidence := outputs.scores i }) := by
  unfold identify_objects
  rw [heng]
  have hsz2 : st.input_sizes[0]?.getD 0 = input_img_len * 4 := by simpa using hsz
  simp [hinit, hcin, hcout, hsz2, hinfer]

/-! Claim theorems. -/

/-- C1: the claim says that after construction on a valid model with N
inputs and M outputs, get_num_inputs and get_num_outputs return N and M.  On
the two-binding demo model (N = M = 1) calculate_model_parameters succeeds
but stores 0 for both counts, because the source computes them from the
dimension vectors it has just cleared, before the binding loop repopulates
them; the shape queries do return the one input and the one output shape in
binding order.  allocate_buffers then fails its count guard (0 inputs), and
the constructed session still reports 0 for both counts. -/
theorem construction_reports_zero_counts :
    (calculate_model_parameters demoModel freshEngine).map get_num_inputs = .ok 0
    ∧ (calculate_model_parameters demoModel freshEngine).map get_num_outputs = .ok 0
    ∧ (calculate_model_parameters demoModel freshEngine).map get_input_shapes
        = .ok [[1, 3, 640, 640]]
    ∧ (calculate_model_parameters demoModel freshEngine).map get_output_shapes
        = .ok [[1, 1]]
    ∧ (calculate_model_parameters demoModel freshEngine).map
        (fun st => (allocate_buffers (fun _ _ => some 9) st).ok) = .ok false
    ∧ (calculate_model_parameters demoModel freshEngine).map
        (fun st => get_num_inputs (allocate_buffers (fun _ _ => some 9) st).state)
        = .ok 0 := by
  refine ⟨rfl, rfl, rfl, rfl, rfl, rfl⟩

/-- C2: the claim says infer_b compares every caller-declared byte size
against the computed byte size of its index and, on any mismatch, returns
false with no device copy and no execution.  On smallEngine the computed
input size is 8 bytes; a call declaring 7 bytes for the one input (which
validate_buffers, the unused helper implementing exactly that per-index
gate, rejects) nevertheless returns true, performs the host-to-device copy
of 7 bytes, and executes. -/
theorem infer_b_skips_size_gate :
    get_input_size_bytes smallEngine = [8]
    ∧ validate_buffers smallEngine [5] [7] [6] [8] = false
    ∧ infer_b smallEngine [5] [7] [6] [8]
        = { ok := true, h2d_copies := [(0, 7)], executed := true,
            d2h_copies := [(0, 8)] } := by
  refine ⟨rfl, rfl, rfl⟩

/-- C3: the claim says a score strictly below 0.25 produces no record and
that the synthetic set with scores 0.9, 0.1, 0.3 yields exactly two records
(indices 0 and 2).  CONFIDENCE_SCORE_THRESHOLD is declared int, so its
initialiser 0.25f truncates to 0; the decoder therefore keeps the score-0.1
detection as well and produces three records. -/
theorem low_score_detection_kept :
    CONFIDENCE_SCORE_THRESHOLD = 0
    ∧ mkRat 1 10 < mkRat 1 4
    ∧ (identify_objects yoloLoaded threeDetections 2 []).2.length = 3
    ∧ ((identify_objects yoloLoaded threeDetections 2 []).2[1]?).map
        detected_object_info.confidence = some (mkRat 1 10) := by
  refine ⟨by decide, by decide, by decide, by decide⟩

/-- C4: the claim says a second unload_model call right after a successful
one leaves the state unchanged and performs no invalid operation.  The first
call on the loaded state succeeds and clears the vectors, but the second
call still iterates i below MODEL_NUM_INPUTS and reads input_data[0] of the
now-empty vector, an out-of-bounds access (modelled as none). -/
theorem double_unload_indexes_out_of_bounds :
    unload_model yoloLoaded = some yoloCleared
    ∧ unload_model yoloCleared = none := by
  refine ⟨rfl, rfl⟩

/-- C5: starting from an engine with no device buffers and valid I/O counts,
if any cudaMalloc call of one allocate_buffers run fails, the run reports
failure, the input buffer list, the output buffer list and the binding table
are all left empty, and the pointers passed to cudaFree are exactly the
handles of the successful cudaMalloc calls made earlier in that same run:
the device buffer set is rolled back to the empty state, never left
partial. -/
theorem allocate_buffers_rollback (malloc : Nat → Nat → Option Nat) (s : EngineState)
    (hin : s.input_cuda_buffers = []) (hout : s.output_cuda_buffers = [])
    (hni : 1 ≤ s.num_inputs) (hno : 1 ≤ s.num_outputs)
    (hfail : ∃ j, j < (get_input_size_bytes s ++ get_output_size_bytes s).length ∧
        malloc j ((get_input_size_bytes s ++ get_output_size_bytes s).getD j 0) = none) :
    (allocate_buffers malloc s).ok = false
    ∧ (allocate_buffers malloc s).state.input_cuda_buffers = []
    ∧ (allocate_buffers malloc s).state.output_cuda_buffers = []
    ∧ (allocate_buffers malloc s).state.bindings = []
    ∧ (allocate_buffers malloc s).freed
        = successfulAllocs malloc 0 (get_input_size_bytes s ++ get_output_size_bytes s) := by
  have hcnt : ¬ (s.num_inputs < 1 ∨ s.num_outputs < 1) := by omega
  have hempty : s.input_cuda_buffers = [] ∧ s.output_cuda_buffers = [] := And.intro hin hout
  obtain ⟨j, hj, hm⟩ := hfail
  obtain ⟨doneAll, hdoneAll⟩ :=
    allocLoop_error_of_fail malloc (get_input_size_bytes s ++ get_output_size_bytes s) 0
      ⟨j, hj, by simpa using hm⟩
  have hval : doneAll
      = successfulAllocs malloc 0 (get_input_size_bytes s ++ get_output_size_bytes s) :=
    allocLoop_error_elim malloc _ 0 doneAll hdoneAll
  rw [allocLoop_append] at hdoneAll
  cases ha : allocLoop malloc 0 (get_input_size_bytes s) with
  | error done =>
    rw [ha] at hdoneAll
    simp only [Except.error.injEq] at hdoneAll
    have key : allocate_buffers malloc s =
        { state :=
            { s with
              input_cuda_buffers := [],
              output_cuda_buffers := [],
              bindings := [] },
          freed := done,
          ok := false } := by
      simp only [allocate_buffers, if_neg (not_not_intro hempty), if_neg hcnt, ha,
        deallocate_buffers]
      simp [filterMap_id_some_append_replicate, hout]
    rw [key, hdoneAll, hval]
    exact ⟨rfl, rfl, rfl, rfl, rfl⟩
  | ok ps =>
    rw [ha] at hdoneAll
    simp only [Nat.zero_add] at hdoneAll
    cases hb : allocLoop malloc (get_input_size_bytes s).length (get_output_size_bytes s) with
    | error done =>
      rw [hb] at hdoneAll
      simp only [Except.error.injEq] at hdoneAll
      have key : allocate_buffers malloc s =
          { state :=
              { s with
                input_cuda_buffers := [],
                output_cuda_buffers := [],
                bindings := [] },
            freed := ps ++ done,
            ok := false } := by
        simp only [allocate_buffers, if_neg (not_not_intro hempty), if_neg hcnt, ha, hb,
          deallocate_buffers]
        simp [filterMap_id_some_append_replicate]
      rw [key, hdoneAll, hval]
      exact ⟨rfl, rfl, rfl, rfl, rfl⟩
    | ok qs =>
      rw [hb] at hdoneAll
      simp at hdoneAll

/-- Witness for C5: on the one-input one-output engine with the oracle
whose second call fails, allocate_buffers rolls back to the empty buffer
state and frees exactly the one handle its first call allocated. -/
theorem allocate_buffers_rollback_witness :
    (allocate_buffers failingMalloc rollbackStart).ok = false
    ∧ (allocate_buffers failingMalloc rollbackStart).state.input_cuda_buffers = []
    ∧ (allocate_buffers failingMalloc rollbackStart).state.output_cuda_buffers = []
    ∧ (allocate_buffers failingMalloc rollbackStart).state.bindings = []
    ∧ (allocate_buffers failingMalloc rollbackStart).freed
        = successfulAllocs failingMalloc 0
            (get_input_size_bytes rollbackStart ++ get_output_size_bytes rollbackStart) :=
  allocate_buffers_rollback failingMalloc rollbackStart rfl rfl (by decide) (by decide)
    ⟨1, by decide, by decide⟩

/-- C6: after a successful allocate_buffers call, a second call with any
oracle and no intervening deallocate_buffers is rejected by the
already-allocated guard: it reports failure and leaves the engine state,
buffer lists and binding table included, exactly as the first call left
them. -/
theorem allocate_buffers_second_call_rejected (m₀ m₁ : Nat → Nat → Option Nat)
    (s : EngineState) (hok : (allocate_buffers m₀ s).ok = true) :
    (allocate_buffers m₁ (allocate_buffers m₀ s).state).ok = false
    ∧ (allocate_buffers m₁ (allocate_buffers m₀ s).state).state
        = (allocate_buffers m₀ s).state := by
  obtain ⟨ps, qs, ha, hb, hni, hno, key⟩ := allocate_buffers_ok_elim m₀ s hok
  have hlen : ps.length = (get_input_size_bytes s).length := allocLoop_ok_length m₀ _ 0 ps ha
  have hpos : 0 < (get_input_size_bytes s).length := by
    simp only [get_input_size_bytes, List.length_map, List.length_range]
    omega
  have hne : (ps.map some : List (Option Nat)) ≠ [] := by
    intro hcontra
    have hzero := congrArg List.length hcontra
    simp only [List.length_map, List.length_nil] at hzero
    omega
  have hguard : ¬ ((allocate_buffers m₀ s).state.input_cuda_buffers = []
      ∧ (allocate_buffers m₀ s).state.output_cuda_buffers = []) := by
    rw [key]
    intro hcontra
    exact hne hcontra.1
  rw [allocate_buffers_already_allocated m₁ _ hguard]
  exact ⟨rfl, rfl⟩

/-- Witness for C6: after a successful allocation on the one-input
one-output engine, a second allocate_buffers call is rejected and changes
nothing. -/
theorem allocate_buffers_second_call_rejected_witness :
    (allocate_buffers okMalloc (allocate_buffers okMalloc rollbackStart).state).ok = false
    ∧ (allocate_buffers okMalloc (allocate_buffers okMalloc rollbackStart).state).state
        = (allocate_buffers okMalloc rollbackStart).state :=
  allocate_buffers_second_call_rejected okMalloc okMalloc rollbackStart (by decide)

/-- C7: once the gates of identify_objects pass, a detection count outside
0..100 makes the call fail with -1 and append no record, while a count of
exactly 0 is no error: the call returns a non-negative value and appends no
record, leaving the caller sequence as it was. -/
theorem identify_objects_count_gate (st : YoloState) (eng : EngineState)
    (outputs : YoloOutputs) (input_img_len : Nat) (res : List detected_object_info)
    (heng : st.engine = some eng) (hinit : st.initialized = true)
    (hcin : get_num_inputs eng = MODEL_NUM_INPUTS)
    (hcout : get_num_outputs eng = MODEL_NUM_OUTPUTS)
    (hsz : st.input_sizes.getD 0 0 = input_img_len * 4)
    (hinfer : (infer_b eng st.input_data st.input_sizes st.output_data
        st.output_sizes).ok = true) :
    ((outputs.num_dets < 0 ∨ 100 < outputs.num_dets) →
        identify_objects st outputs input_img_len res = (-1, res))
    ∧ (outputs.num_dets = 0 →
        identify_objects st outputs input_img_len res = (0, res)) := by
  rw [identify_objects_gates_eq st eng outputs input_img_len res heng hinit hcin hcout
    hsz hinfer]
  constructor
  · intro h
    rw [if_pos h]
  · intro h0
    rw [if_neg (by omega), h0]
    simp

/-- Witness for C7: on the loaded module, counts 101 and -1 fail with -1 and
no appended record, and count 0 returns 0 with no appended record. -/
theorem identify_objects_count_gate_witness :
    identify_objects yoloLoaded tooManyDetections 2 [] = (-1, [])
    ∧ identify_objects yoloLoaded negativeDetections 2 [] = (-1, [])
    ∧ identify_objects yoloLoaded zeroDetections 2 [] = (0, []) :=
  ⟨(identify_objects_count_gate yoloLoaded yoloEngine tooManyDetections 2 []
      rfl rfl rfl rfl rfl rfl).1 (by decide),
   (identify_objects_count_gate yoloLoaded yoloEngine negativeDetections 2 []
      rfl rfl rfl rfl rfl rfl).1 (by decide),
   (identify_objects_count_gate yoloLoaded yoloEngine zeroDetections 2 []
      rfl rfl rfl rfl rfl rfl).2 rfl⟩

/-- C8: once the gates pass and the count is in range, every detection that
passes the confidence filter contributes exactly one record holding box
x = x1, y = y1, width = x2 - x1, height = y2 - y1 from its corner pair,
confidence equal to its score and class id equal to its label; the records
are appended after the existing caller sequence in original detection-index
order (the kept index list is strictly increasing, no re-sorting by
score). -/
theorem identify_objects_record_fields (st : YoloState) (eng : EngineState)
    (outputs : YoloOutputs) (input_img_len : Nat) (res : List detected_object_info)
    (heng : st.engine = some eng) (hinit : st.initialized = true)
    (hcin : get_num_inputs eng = MODEL_NUM_INPUTS)
    (hcout : get_num_outputs eng = MODEL_NUM_OUTPUTS)
    (hsz : st.input_sizes.getD 0 0 = input_img_len * 4)
    (hinfer : (infer_b eng st.input_data st.input_sizes st.output_data
        st.output_sizes).ok = true)
    (hlow : 0 ≤ outputs.num_dets) (hhigh : outputs.num_dets ≤ 100) :
    (identify_objects st outputs input_img_len res).2
      = res ++ ((List.range outputs.num_dets.toNat).filter fun i =>
          decide (¬ outputs.scores i < (CONFIDENCE_SCORE_THRESHOLD : ℚ))).map (fun i =>
          { rect :=
              { x := outputs.bboxes (i * 4),
                y := outputs.bboxes (i * 4 + 1),
                width := outputs.bboxes (i * 4 + 2) - outputs.bboxes (i * 4),
                height := outputs.bboxes (i * 4 + 3) - outputs.bboxes (i * 4 + 1) },
            class_id := outputs.labels i,
            confidence := outputs.scores i })
    ∧ List.Sorted (· < ·) ((List.range outputs.num_dets.toNat).filter fun i =>
        decide (¬ outputs.scores i < (CONFIDENCE_SCORE_THRESHOLD : ℚ))) := by
  constructor
  · rw [identify_objects_gates_eq st eng outputs input_img_len res heng hinit hcin hcout
      hsz hinfer]
    rw [if_neg (by omega)]
    rw [filterMap_reject (fun i => outputs.scores i < (CONFIDENCE_SCORE_THRESHOLD : ℚ))]
  · exact (List.sorted_lt_range _).filter _

/-- Witness for C8: the record-field characterisation evaluated on the
loaded module and the three-detection synthetic output set. -/
theorem identify_objects_record_fields_witness :
    (identify_objects yoloLoaded threeDetections 2 []).2
      = [] ++ ((List.range threeDetections.num_dets.toNat).filter fun i =>
          decide (¬ threeDetections.scores i < (CONFIDENCE_SCORE_THRESHOLD : ℚ))).map (fun i =>
          { rect :=
              { x := threeDetections.bboxes (i * 4),
                y := threeDetections.bboxes (i * 4 + 1),
                width := threeDetections.bboxes (i * 4 + 2) - threeDetections.bboxes (i * 4),
                height := threeDetections.bboxes (i * 4 + 3)
                  - threeDetections.bboxes (i * 4 + 1) },
            class_id := threeDetections.labels i,
            confidence := threeDetections.scores i })
    ∧ List.Sorted (· < ·) ((List.range threeDetections.num_dets.toNat).filter fun i =>
        decide (¬ threeDetections.scores i < (CONFIDENCE_SCORE_THRESHOLD : ℚ))) :=
  identify_objects_record_fields yoloLoaded yoloEngine threeDetections 2 []
    rfl rfl rfl rfl rfl rfl (by decide) (by decide)

/-- C9: infer_async returns false and retrieve_infer_result_async returns 0
for every argument. -/
theorem async_stubs_always_fail (input_buf size_in_param output_buf size_out_param : List Nat) :
    infer_async input_buf size_in_param = false
    ∧ retrieve_infer_result_async output_buf size_out_param = 0 :=
  ⟨rfl, rfl⟩

/-- C10: the claim says a non-negative return of identify_objects equals the
number of records appended to results_detections.  With one detection of
score 0.9 the call appends one record but returns 0, the size of the
results_buffer vector it cleared earlier and never appends to. -/
theorem return_value_differs_from_record_count :
    (identify_objects yoloLoaded oneDetection 2 []).1 = 0
    ∧ (identify_objects yoloLoaded oneDetection 2 []).2.length = 1
    ∧ ((identify_objects yoloLoaded oneDetection 2 []).2[0]?).map
        detected_object_info.class_id = some 7
    ∧ ((identify_objects yoloLoaded oneDetection 2 []).2[0]?).map
        detected_object_info.confidence = some (mkRat 9 10) := by
  refine ⟨by decide, by decide, by decide, by decide⟩

end TRTEdge
